import Mathlib

/-!
Verification of `src/Tools/extract_vbios.py` (NVDAAL-Driver).

A shallow embedding of the VBIOS extraction tool: device enumeration
(`find_nvidia_gpus`), device-name lookup (`get_device_name`), the ROM
capture protocol (`read_vbios_from_device`), structural validation
(`validate_vbios`), persistence (`save_vbios`) and the exit-code logic
of `main`.

Byte sequences are modelled as `List Nat`; the Python `None` for an
absent image as `Option`; fallible I/O as explicit outcome parameters;
a raised exception from `struct.unpack` as `Option.none`.
-/

namespace ExtractVbios

/-- The whitespace characters stripped by the Python `str.strip()`
(ASCII subset; the attribute files hold ASCII hex text). -/
def isPySpace (c : Char) : Bool :=
  c = ' ' || c = '\t' || c = '\n' || c = '\r' || c = '\x0b' || c = '\x0c'

/-- `str.strip()`: drop whitespace from both ends. -/
def pyStrip (s : String) : String :=
  ⟨((s.data.dropWhile isPySpace).reverse.dropWhile isPySpace).reverse⟩

/-- `str.lower()` (ASCII case folding; the identifiers are ASCII hex). -/
def pyLower (s : String) : String :=
  ⟨s.data.map Char.toLower⟩

/-- Python slice `l[a:b]` for nonnegative bounds (clamping semantics). -/
def pySlice (l : List Nat) (a b : Nat) : List Nat :=
  (l.drop a).take (b - a)

/-- `struct.unpack` with format `<H`: the little-endian 16-bit value of
a slice; raises (`none`) unless the slice is exactly two bytes long. -/
def unpack_le16 (l : List Nat) : Option Nat :=
  match l with
  | [b0, b1] => some (b0 + 256 * b1)
  | _ => none

/-- The two-byte legacy ROM signature `55 AA`. -/
def romSig : List Nat := [0x55, 0xAA]

/-- The four ASCII bytes of the `PCIR` signature. -/
def pcirSig : List Nat := [0x50, 0x43, 0x49, 0x52]

/-- The PCI Data Structure pointer read by `validate_vbios`: the
little-endian 16-bit value of the slice `data[0x18:0x1A]`. -/
def pciOffset (d : List Nat) : Option Nat :=
  unpack_le16 (pySlice d 0x18 0x1A)

/-- `validate_vbios` on a non-`None` byte sequence.  Mirrors the source:
length check, the `data[0:2]` signature comparison against `55 AA`, then
the pointer chase; `none` models a raised exception. -/
def validate_bytes (d : List Nat) : Option (Bool × String) :=
  if d.length < 64 then some (false, "Dados muito pequenos")
  else if pySlice d 0 2 ≠ romSig then
    some (false, "Assinatura ROM inválida (esperado 55 AA)")
  else
    match pciOffset d with
    | none => none
    | some p =>
      if p + 4 ≤ d.length then
        if pySlice d p (p + 4) = pcirSig then
          some (true, "VBIOS válido (PCIR encontrado)")
        else
          some (true, "VBIOS parece válido (assinatura 55 AA)")
      else
        some (true, "VBIOS parece válido (assinatura 55 AA)")

/-- `validate_vbios(data)`: the Python `if not data or len(data) < 64`
treats `None` (and the empty sequence) as too small. -/
def validate_vbios (data : Option (List Nat)) : Option (Bool × String) :=
  match data with
  | none => some (false, "Dados muito pequenos")
  | some d => validate_bytes d

/-- The Python `dict.get(key, default)` over an association list (the
static `devices` table), `none` when the key is absent. -/
def dict_get (table : List (String × String)) (key : String) : Option String :=
  match table with
  | [] => none
  | (k, v) :: rest => if key = k then some v else dict_get rest key

/-- The static `devices` table of `get_device_name`. -/
def devices_table : List (String × String) :=
  [("0x2684", "RTX 4090"),
   ("0x2685", "RTX 4090 D"),
   ("0x2702", "RTX 4080 Super"),
   ("0x2704", "RTX 4080"),
   ("0x2705", "RTX 4070 Ti Super"),
   ("0x2782", "RTX 4070 Ti"),
   ("0x2786", "RTX 4070"),
   ("0x2860", "RTX 4070 Super")]

/-- `get_device_name(device_id)`: lowercase lookup with the
`"Unknown (<id>)"` default. -/
def get_device_name (device_id : String) : String :=
  (dict_get devices_table (pyLower device_id)).getD ("Unknown (" ++ device_id ++ ")")

/-- One directory entry under the PCI device root, as `find_nvidia_gpus`
observes it: whether the `vendor`/`device` attribute files exist, and the
text each read yields (`none` models a read that raises). -/
structure PciEntry where
  dirName : String
  vendorExists : Bool
  deviceExists : Bool
  vendorRead : Option String
  deviceRead : Option String
deriving DecidableEq

/-- `find_nvidia_gpus()` over a snapshot of the sysfs PCI directory:
skip entries missing an attribute file or whose reads raise, strip both
texts, keep `(dir, device)` exactly when the vendor text equals
`"0x10de"`. -/
def find_nvidia_gpus (entries : List PciEntry) : List (String × String) :=
  entries.filterMap fun e =>
    if e.vendorExists && e.deviceExists then
      match e.vendorRead with
      | none => none
      | some v =>
        match e.deviceRead with
        | none => none
        | some dv =>
          if pyStrip v = "0x10de" then some (e.dirName, pyStrip dv) else none
    else none

/-- Which exception, if any, an I/O operation on the ROM attribute
raises. -/
inductive PyErr
  | permission
  | other
deriving DecidableEq

/-- The ROM-attribute behaviour of one device during one capture call:
whether the `rom` file exists and what each of the three operations in
`read_vbios_from_device` would do if attempted. -/
structure RomEnv where
  romExists : Bool
  enableWrite : Except PyErr Unit
  readRom : Except PyErr (List Nat)
  disableWrite : Except PyErr Unit

/-- The operations `read_vbios_from_device` attempts on the ROM
attribute, in order: the enable write of `b"1"`, the bulk read, the
disable write of `b"0"`. -/
inductive Ev
  | enableW
  | readR
  | disableW
deriving DecidableEq

/-- What `read_vbios_from_device` returns and reports: the raw bytes on
success, or `None` with one of three diagnostics. -/
inductive CaptureOutcome
  | noRom
  | success (data : List Nat)
  | permissionDenied
  | genericError
deriving DecidableEq

/-- Classify a raised exception the way the two `except` clauses of
`read_vbios_from_device` do. -/
def classifyErr (e : PyErr) : CaptureOutcome :=
  match e with
  | PyErr.permission => CaptureOutcome.permissionDenied
  | PyErr.other => CaptureOutcome.genericError

/-- `read_vbios_from_device(pci_addr)`: existence check, then the
enable/read/disable sequence inside one `try`, whose first raised
exception aborts the rest of the sequence and selects the diagnostic.
Returns the outcome together with the list of operations attempted. -/
def read_vbios_from_device (env : RomEnv) : CaptureOutcome × List Ev :=
  if env.romExists = false then (CaptureOutcome.noRom, [])
  else
    match env.enableWrite with
    | Except.error e => (classifyErr e, [Ev.enableW])
    | Except.ok _ =>
      match env.readRom with
      | Except.error e => (classifyErr e, [Ev.enableW, Ev.readR])
      | Except.ok data =>
        match env.disableWrite with
        | Except.error e => (classifyErr e, [Ev.enableW, Ev.readR, Ev.disableW])
        | Except.ok _ => (CaptureOutcome.success data, [Ev.enableW, Ev.readR, Ev.disableW])

/-- `save_vbios(data, output_file)`: validate, prompt (`response` is the
`input()` text) only when invalid, decline unless the lowered response is
`"y"`, otherwise bulk-write the bytes.  Result: the bytes written to the
output file (if any) and the boolean return value; `none` models a raised
exception from validation. -/
def save_vbios (data : List Nat) (response : String) :
    Option (Option (List Nat) × Bool) :=
  match validate_bytes data with
  | none => none
  | some (valid, _msg) =>
    if valid = false then
      if pyLower response ≠ "y" then some (none, false)
      else some (some data, true)
    else some (some data, true)

/-- Python list indexing `l[idx]` with its negative-index convention;
`none` models an `IndexError`. -/
def py_list_get {α : Type} (l : List α) (idx : Int) : Option α :=
  if 0 ≤ idx then l.get? idx.toNat
  else if -idx ≤ (l.length : Int) then l.get? (l.length - (-idx).toNat)
  else none

/-- The index-validity check of `main`: `args.index >= len(gpus)` exits
with code 1. -/
def index_rejected (gpus : List (String × String)) (idx : Int) : Bool :=
  (gpus.length : Int) ≤ idx

/-- The tail of `main` after a device was selected: capture, the
`if not data` check, then `save_vbios` whose boolean result is only used
to decide whether to print the success banner — the process still falls
off the end of `main` and exits 0 either way. -/
def capture_and_save (env : RomEnv) (response : String) : Option Nat :=
  match (read_vbios_from_device env).1 with
  | CaptureOutcome.success data =>
    if data.length = 0 then some 1
    else
      match save_vbios data response with
      | none => none
      | some _ => some 0
  | _ => some 1

/-- The exit code of `main` given the enumerated GPUs, the `-l` flag, the
`-i` index, the ROM behaviour of the selected device and the interactive
response; `none` models an uncaught exception. -/
def main_exit (gpus : List (String × String)) (listMode : Bool) (idx : Int)
    (env : RomEnv) (response : String) : Option Nat :=
  if gpus.length = 0 then some 1
  else if listMode then some 0
  else if index_rejected gpus idx then some 1
  else
    match py_list_get gpus idx with
    | none => none
    | some _ => capture_and_save env response

/-! Concrete inputs used by counterexamples and witnesses. -/

/-- A 64-byte image with a valid signature whose PCI Data Structure
pointer (`0xFFFF`) lies far beyond the end of the image. -/
def farPtrImage : List Nat :=
  [0x55, 0xAA] ++ List.replicate 22 0 ++ [0xFF, 0xFF] ++ List.replicate 38 0

/-- A 64-byte image with a valid signature, pointer `0x20`, and `PCIR`
at offset `0x20`. -/
def pcirImage : List Nat :=
  [0x55, 0xAA] ++ List.replicate 22 0 ++ [0x20, 0x00] ++ List.replicate 6 0 ++
    pcirSig ++ List.replicate 28 0

/-- A 64-byte image whose first two bytes are not the ROM signature. -/
def badSigImage : List Nat := 0 :: 0 :: List.replicate 62 0

/-- A 64-byte image with a valid signature and a zero structure
pointer, so no `PCIR` is locatable. -/
def weakImage : List Nat := romSig ++ List.replicate 62 0

/-- A capture in which the enable write succeeds but the read raises a
generic I/O error. -/
def envReadFails : RomEnv :=
  ⟨true, Except.ok (), Except.error PyErr.other, Except.ok ()⟩

/-- A capture in which enable and read succeed. -/
def envReadOk : RomEnv :=
  ⟨true, Except.ok (), Except.ok [1, 2], Except.ok ()⟩

/-- A capture in which enable and read succeed but the disable write
raises a generic I/O error. -/
def envDisableFails : RomEnv :=
  ⟨true, Except.ok (), Except.ok [1, 2, 3], Except.error PyErr.other⟩

/-- A capture in which the enable write raises a permission error. -/
def envEnablePerm : RomEnv :=
  ⟨true, Except.error PyErr.permission, Except.ok [], Except.ok ()⟩

/-- A capture that successfully yields an image with a bad signature. -/
def envCaptureBadSig : RomEnv :=
  ⟨true, Except.ok (), Except.ok badSigImage, Except.ok ()⟩

/-- A sysfs entry whose vendor attribute reads as uppercase
`"0x10DE\n"`, with a readable device attribute. -/
def upperVendorEntry : PciEntry :=
  ⟨"0000:01:00.0", true, true, some "0x10DE\n", some "0x2684\n"⟩

/-- A sysfs entry whose vendor attribute reads as lowercase
`"0x10de\n"`, with a readable device attribute. -/
def lowerVendorEntry : PciEntry :=
  ⟨"0000:02:00.0", true, true, some "0x10de\n", some "0x2704\n"⟩

/-- A two-element device list. -/
def exampleGpus : List (String × String) :=
  [("0000:01:00.0", "0x2684"), ("0000:02:00.0", "0x2704")]

/-! Helper lemmas. -/

/-- A successful `dict_get` returns a value stored in the table. -/
theorem dict_get_mem {t : List (String × String)} {k v : String}
    (h : dict_get t k = some v) : ∃ p ∈ t, p.2 = v := by
  induction t with
  | nil => exact absurd h (by simp [dict_get])
  | cons hd tl ih =>
    obtain ⟨k2, v2⟩ := hd
    rw [dict_get] at h
    by_cases hk : k = k2
    · rw [if_pos hk] at h
      exact ⟨(k2, v2), by simp, by simpa using Option.some.inj h⟩
    · rw [if_neg hk] at h
      obtain ⟨p, hp, hv⟩ := ih h
      exact ⟨p, by simp [hp], hv⟩

/-- On an image of at least 64 bytes the two-byte slice at `0x18`
always unpacks, so the pointer read never raises. -/
theorem pciOffset_isSome (d : List Nat) (h : 64 ≤ d.length) :
    ∃ p, pciOffset d = some p := by
  have hlen : (pySlice d 0x18 0x1A).length = 2 := by
    simp [pySlice]
    omega
  obtain ⟨a, b, hab⟩ := List.length_eq_two.mp hlen
  exact ⟨a + 256 * b, by simp [pciOffset, hab, unpack_le16]⟩

/-! Claim theorems. -/

/-- C1 (counterexample): in a capture where the enable write to the ROM
attribute succeeded but the read raised, `read_vbios_from_device`
returns the generic failure without ever issuing the disable write, so
the disable is not issued on every enable-succeeded path. -/
theorem read_error_disable_not_issued :
    envReadFails.enableWrite = Except.ok () ∧
    (read_vbios_from_device envReadFails).1 = CaptureOutcome.genericError ∧
    Ev.disableW ∉ (read_vbios_from_device envReadFails).2 :=
  ⟨rfl, rfl, by decide⟩

/-- C1 (amended): after a successful enable write, the disable write is
issued exactly on the paths where the read succeeded (even if the
disable write itself then fails); when the read raises, the exception
handler returns with the attempted operations stopping at the read, so
the ROM-BAR enable state is not restored on the read-failure path. -/
theorem rom_disable_iff_read_succeeded (env : RomEnv)
    (hrom : env.romExists = true) (hen : env.enableWrite = Except.ok ()) :
    ((∃ d, env.readRom = Except.ok d) →
      (read_vbios_from_device env).2 = [Ev.enableW, Ev.readR, Ev.disableW]) ∧
    (∀ e, env.readRom = Except.error e →
      (read_vbios_from_device env).2 = [Ev.enableW, Ev.readR] ∧
      Ev.disableW ∉ (read_vbios_from_device env).2) := by
  constructor
  · rintro ⟨d, hd⟩
    cases hdw : env.disableWrite <;>
      simp [read_vbios_from_device, hrom, hen, hd, hdw]
  · intro e he
    simp [read_vbios_from_device, hrom, hen, he]

/-- C1 (witness): on a concrete capture where enable and read succeed,
the disable write is issued. -/
theorem rom_disable_iff_read_succeeded_witness :
    (read_vbios_from_device envReadOk).2 = [Ev.enableW, Ev.readR, Ev.disableW] :=
  (rom_disable_iff_read_succeeded envReadOk rfl rfl).1 ⟨[1, 2], rfl⟩

/-- C2 (counterexample): in a capture where enable and read succeed but
the disable write fails, `read_vbios_from_device` does not return the
read bytes as a success: the exception handler swallows them and
reports the generic failure. -/
theorem disable_failure_loses_bytes :
    envDisableFails.readRom = Except.ok [1, 2, 3] ∧
    (read_vbios_from_device envDisableFails).1 ≠ CaptureOutcome.success [1, 2, 3] ∧
    (read_vbios_from_device envDisableFails).1 = CaptureOutcome.genericError :=
  ⟨rfl, by decide, rfl⟩

/-- C2 (amended): when enable and read succeed but the disable write
raises, the capture returns the failure outcome selected by the raised
exception and never a success carrying the read bytes — the disable
failure overwrites the outcome of the read. -/
theorem disable_failure_discards_read (env : RomEnv) (data : List Nat) (e : PyErr)
    (hrom : env.romExists = true) (hen : env.enableWrite = Except.ok ())
    (hrd : env.readRom = Except.ok data) (hdw : env.disableWrite = Except.error e) :
    (read_vbios_from_device env).1 = classifyErr e ∧
    ∀ d, (read_vbios_from_device env).1 ≠ CaptureOutcome.success d := by
  have h1 : (read_vbios_from_device env).1 = classifyErr e := by
    simp [read_vbios_from_device, hrom, hen, hrd, hdw]
  refine ⟨h1, fun d => ?_⟩
  rw [h1]
  cases e <;> simp [classifyErr]

/-- C2 (witness): the amended statement at a concrete capture whose
disable write raises a generic error. -/
theorem disable_failure_discards_read_witness :
    (read_vbios_from_device envDisableFails).1 = classifyErr PyErr.other :=
  (disable_failure_discards_read envDisableFails [1, 2, 3] PyErr.other
    rfl rfl rfl rfl).1

/-- C3 (counterexample): on a captured invalid image with a declining
response, `save_vbios` returns failure without writing, yet `main`
falls off the end and the process exits 0, not 1. -/
theorem declined_save_exits_zero :
    save_vbios badSigImage "n" = some (none, false) ∧
    main_exit [("0000:01:00.0", "0x2684")] false 0 envCaptureBadSig "n" = some 0 := by
  decide

/-- C3 (amended): when validation rejects the image and the lowered
response is not `y`, `save_vbios` returns failure without writing the
destination artifact, but `main` never inspects that failure for its
exit status: on every run reaching the save step the process exits 0. -/
theorem declined_save_no_write_exit_zero (data : List Nat) (response m : String)
    (hv : validate_bytes data = some (false, m)) (hr : pyLower response ≠ "y") :
    save_vbios data response = some (none, false) ∧
    ∀ (gpus : List (String × String)) (idx : Int) (env : RomEnv),
      gpus.length ≠ 0 → index_rejected gpus idx = false →
      (py_list_get gpus idx).isSome = true →
      (read_vbios_from_device env).1 = CaptureOutcome.success data →
      data.length ≠ 0 →
      main_exit gpus false idx env response = some 0 := by
  have hsave : save_vbios data response = some (none, false) := by
    simp [save_vbios, hv, hr]
  refine ⟨hsave, ?_⟩
  intro gpus idx env hg hidx hsel hcap hd
  obtain ⟨g, hgsel⟩ := Option.isSome_iff_exists.mp hsel
  simp [main_exit, hg, hidx, hgsel, capture_and_save, hcap, hd, hsave]

/-- C3 (witness): the amended statement at a concrete bad-signature
image, declining response, and a run of `main` reaching the save. -/
theorem declined_save_no_write_exit_zero_witness :
    save_vbios badSigImage "no" = some (none, false) ∧
    main_exit [("0000:02:00.0", "0x2704")] false 0 envCaptureBadSig "no" = some 0 :=
  ⟨(declined_save_no_write_exit_zero badSigImage "no"
      "Assinatura ROM inválida (esperado 55 AA)" (by decide) (by decide)).1,
   (declined_save_no_write_exit_zero badSigImage "no"
      "Assinatura ROM inválida (esperado 55 AA)" (by decide) (by decide)).2
      [("0000:02:00.0", "0x2704")] 0 envCaptureBadSig (by decide) (by decide)
      (by decide) rfl (by decide)⟩

/-- C4: `validate_vbios` implements exactly the four-step
classification: too small below 64 bytes (or for an absent image), bad
signature when the first two bytes differ from `55 AA`, valid with the
located-structure reason when the pointer is in range and points at
`PCIR`, and valid with the weaker signature-present reason otherwise. -/
theorem validate_vbios_classification :
    validate_vbios none = some (false, "Dados muito pequenos") ∧
    ∀ d : List Nat,
      (d.length < 64 → validate_vbios (some d) = some (false, "Dados muito pequenos")) ∧
      (64 ≤ d.length → pySlice d 0 2 ≠ romSig →
        validate_vbios (some d) = some (false, "Assinatura ROM inválida (esperado 55 AA)")) ∧
      (∀ p, 64 ≤ d.length → pySlice d 0 2 = romSig → pciOffset d = some p →
        p + 4 ≤ d.length → pySlice d p (p + 4) = pcirSig →
        validate_vbios (some d) = some (true, "VBIOS válido (PCIR encontrado)")) ∧
      (∀ p, 64 ≤ d.length → pySlice d 0 2 = romSig → pciOffset d = some p →
        ¬(p + 4 ≤ d.length ∧ pySlice d p (p + 4) = pcirSig) →
        validate_vbios (some d) = some (true, "VBIOS parece válido (assinatura 55 AA)")) := by
  refine ⟨rfl, fun d => ⟨?_, ?_, ?_, ?_⟩⟩
  · intro h
    simp [validate_vbios, validate_bytes, h]
  · intro h hs
    simp [validate_vbios, validate_bytes, show ¬ d.length < 64 by omega, hs]
  · intro p h hs hp hle hsig
    simp [validate_vbios, validate_bytes, show ¬ d.length < 64 by omega, hs, hp, hle, hsig]
  · intro p h hs hp hnot
    by_cases hle : p + 4 ≤ d.length
    · have hsig : pySlice d p (p + 4) ≠ pcirSig := fun hc => hnot ⟨hle, hc⟩
      simp [validate_vbios, validate_bytes, show ¬ d.length < 64 by omega, hs, hp, hle, hsig]
    · simp [validate_vbios, validate_bytes, show ¬ d.length < 64 by omega, hs, hp, hle]

/-- C4 (witness): the located-structure case at a concrete image whose
pointer `0x20` is in range and points at `PCIR`. -/
theorem validate_vbios_classification_witness :
    validate_vbios (some pcirImage) = some (true, "VBIOS válido (PCIR encontrado)") :=
  (validate_vbios_classification.2 pcirImage).2.2.1 0x20
    (by decide) (by decide) (by decide) (by decide) (by decide)

/-- C5 (counterexample): a readable entry whose trimmed vendor text is
`0x10DE` — case-insensitively equal to `0x10de` — is not included by
`find_nvidia_gpus`: the comparison in the source is case-sensitive. -/
theorem uppercase_vendor_excluded :
    pyLower (pyStrip "0x10DE\n") = pyLower "0x10de" ∧
    upperVendorEntry.vendorExists = true ∧
    upperVendorEntry.deviceExists = true ∧
    upperVendorEntry.vendorRead = some "0x10DE\n" ∧
    upperVendorEntry.deviceRead = some "0x2684\n" ∧
    find_nvidia_gpus [upperVendorEntry] = [] := by
  decide

/-- C5 (amended): the enumerator compares the trimmed vendor text for
exact (case-sensitive) equality with `0x10de`: every readable entry
whose trimmed vendor text equals `0x10de` exactly is included, and
every entry of the returned list arises from such an entry — so in
particular no device whose vendor text differs from the exact lowercase
string is ever included. -/
theorem find_nvidia_gpus_exact_match (entries : List PciEntry) :
    (∀ e ∈ entries, e.vendorExists = true → e.deviceExists = true →
      ∀ v dv, e.vendorRead = some v → e.deviceRead = some dv →
        pyStrip v = "0x10de" →
        (e.dirName, pyStrip dv) ∈ find_nvidia_gpus entries) ∧
    (∀ g ∈ find_nvidia_gpus entries, ∃ e ∈ entries,
        e.vendorExists = true ∧ e.deviceExists = true ∧
        ∃ v dv, e.vendorRead = some v ∧ e.deviceRead = some dv ∧
          pyStrip v = "0x10de" ∧ g = (e.dirName, pyStrip dv)) := by
  constructor
  · intro e he hv hd v dv hvr hdr htrim
    unfold find_nvidia_gpus
    exact List.mem_filterMap.mpr ⟨e, he, by simp [hv, hd, hvr, hdr, htrim]⟩
  · intro g hg
    unfold find_nvidia_gpus at hg
    obtain ⟨e, he, hfe⟩ := List.mem_filterMap.mp hg
    refine ⟨e, he, ?_⟩
    cases hve : e.vendorExists <;> cases hde : e.deviceExists <;>
      simp [hve, hde] at hfe
    cases hvr : e.vendorRead with
    | none => simp [hvr] at hfe
    | some v =>
      cases hdr : e.deviceRead with
      | none => simp [hvr, hdr] at hfe
      | some dv =>
        simp [hvr, hdr] at hfe
        obtain ⟨ht, hge⟩ := hfe
        exact ⟨rfl, rfl, v, dv, rfl, rfl, ht, hge.symm⟩

/-- C5 (witness): a concrete lowercase-vendor entry is included. -/
theorem find_nvidia_gpus_exact_match_witness :
    ("0000:02:00.0", pyStrip "0x2704\n") ∈ find_nvidia_gpus [lowerVendorEntry] :=
  (find_nvidia_gpus_exact_match [lowerVendorEntry]).1 lowerVendorEntry (by decide)
    rfl rfl "0x10de\n" "0x2704\n" rfl rfl (by decide)

/-- C6: when the enable write raises a permission error, the capture
aborts reporting the distinguished permission-denied diagnostic, with
no read and no disable write attempted. -/
theorem enable_permission_aborts (env : RomEnv)
    (hrom : env.romExists = true)
    (hen : env.enableWrite = Except.error PyErr.permission) :
    (read_vbios_from_device env).1 = CaptureOutcome.permissionDenied ∧
    (read_vbios_from_device env).2 = [Ev.enableW] ∧
    Ev.readR ∉ (read_vbios_from_device env).2 ∧
    Ev.disableW ∉ (read_vbios_from_device env).2 := by
  have h2 : (read_vbios_from_device env).2 = [Ev.enableW] := by
    simp [read_vbios_from_device, hrom, hen]
  refine ⟨?_, h2, ?_, ?_⟩
  · simp [read_vbios_from_device, hrom, hen, classifyErr]
  · rw [h2]; decide
  · rw [h2]; decide

/-- C6 (witness): the statement at a concrete permission-failing
capture. -/
theorem enable_permission_aborts_witness :
    (read_vbios_from_device envEnablePerm).1 = CaptureOutcome.permissionDenied ∧
    (read_vbios_from_device envEnablePerm).2 = [Ev.enableW] ∧
    Ev.readR ∉ (read_vbios_from_device envEnablePerm).2 ∧
    Ev.disableW ∉ (read_vbios_from_device envEnablePerm).2 :=
  enable_permission_aborts envEnablePerm rfl rfl

/-- C7: `validate_vbios` is total — it returns a result (never the
`none` that models a raised exception) on every input, including `None`
and the empty sequence — and an in-signature image whose structure
pointer lies beyond the end of the image degrades to the weaker
signature-present classification. -/
theorem validate_vbios_total (data : Option (List Nat)) :
    (validate_vbios data).isSome = true ∧
    (∀ d p, data = some d → 64 ≤ d.length → pySlice d 0 2 = romSig →
      pciOffset d = some p → d.length < p + 4 →
      validate_vbios data = some (true, "VBIOS parece válido (assinatura 55 AA)")) := by
  constructor
  · cases data with
    | none => rfl
    | some d =>
      simp only [validate_vbios, validate_bytes]
      by_cases h : d.length < 64
      · simp [h]
      · obtain ⟨p, hp⟩ := pciOffset_isSome d (by omega)
        by_cases hs : pySlice d 0 2 = romSig
        · simp only [h, if_false, hs, ne_eq, not_true_eq_false, hp]
          split
          · split <;> simp
          · simp
        · simp [h, hs]
  · intro d p hd h64 hs hp hlt
    subst hd
    simp [validate_vbios, validate_bytes, show ¬ d.length < 64 by omega, hs, hp,
      show ¬ p + 4 ≤ d.length by omega]

/-- C7 (witness): the out-of-range-pointer case at a concrete image
whose pointer is `0xFFFF`. -/
theorem validate_vbios_total_witness :
    (validate_vbios (some farPtrImage)).isSome = true ∧
    validate_vbios (some farPtrImage) = some (true, "VBIOS parece válido (assinatura 55 AA)") :=
  ⟨(validate_vbios_total (some farPtrImage)).1,
   (validate_vbios_total (some farPtrImage)).2 farPtrImage 0xFFFF rfl
     (by decide) (by decide) (by decide) (by decide)⟩

/-- C8: for every image that validates as valid, `save_vbios` writes
exactly the image bytes in one bulk write and returns success,
whatever the interactive response (the prompt is only reached for
invalid images). -/
theorem save_vbios_valid_roundtrip (data : List Nat) (response m : String)
    (hv : validate_bytes data = some (true, m)) :
    save_vbios data response = some (some data, true) := by
  simp [save_vbios, hv]

/-- C8 (witness): the round trip at a concrete valid image. -/
theorem save_vbios_valid_roundtrip_witness :
    save_vbios weakImage "n" = some (some weakImage, true) :=
  save_vbios_valid_roundtrip weakImage "n"
    "VBIOS parece válido (assinatura 55 AA)" (by decide)

/-- C9: `get_device_name` is a pure total lookup: every device-ID
string yields a non-empty name, and identifiers absent from the static
table map to the `Unknown (<id>)` sentinel containing the queried
identifier. -/
theorem get_device_name_total (id : String) :
    0 < (get_device_name id).length ∧
    (dict_get devices_table (pyLower id) = none →
      get_device_name id = "Unknown (" ++ id ++ ")") := by
  constructor
  · unfold get_device_name
    cases h : dict_get devices_table (pyLower id) with
    | none =>
      simp [Option.getD, String.length_append]
      exact Or.inl (Or.inl (by decide))
    | some v =>
      obtain ⟨p, hp, hv⟩ := dict_get_mem h
      have hall : ∀ p ∈ devices_table, 0 < p.2.length := by decide
      simpa [Option.getD, ← hv] using hall p hp
  · intro h
    simp [get_device_name, h]

/-- C9 (witness): a concrete unknown identifier maps to the sentinel
and the result is non-empty. -/
theorem get_device_name_total_witness :
    0 < (get_device_name "0xABCD").length ∧
    get_device_name "0xABCD" = "Unknown (" ++ "0xABCD" ++ ")" :=
  ⟨(get_device_name_total "0xABCD").1,
   (get_device_name_total "0xABCD").2 (by decide)⟩

/-- C10: a negative index `-n` with `1 ≤ n ≤ length` passes the index
check of `main` (which only rejects indices at or above the count),
selects the device `n` positions from the end, and `main` proceeds into
the capture-and-save phase for that selection. -/
theorem negative_index_selects_from_end (gpus : List (String × String)) (n : Nat)
    (h1 : 1 ≤ n) (h2 : n ≤ gpus.length) :
    index_rejected gpus (-(n : Int)) = false ∧
    py_list_get gpus (-(n : Int)) = gpus[gpus.length - n]? ∧
    (py_list_get gpus (-(n : Int))).isSome = true ∧
    ∀ (env : RomEnv) (response : String),
      main_exit gpus false (-(n : Int)) env response =
        capture_and_save env response := by
  have hrej : index_rejected gpus (-(n : Int)) = false := by
    simp [index_rejected]
    omega
  have hneg : ¬ (0 ≤ -(n : Int)) := by omega
  have hsel : py_list_get gpus (-(n : Int)) = gpus[gpus.length - n]? := by
    simp only [py_list_get, if_neg hneg, neg_neg]
    rw [if_pos (by omega)]
    norm_num
  have hsome : (py_list_get gpus (-(n : Int))).isSome = true := by
    rw [hsel]
    simp [List.getElem?_eq_getElem (show gpus.length - n < gpus.length by omega)]
  refine ⟨hrej, hsel, hsome, ?_⟩
  intro env response
  obtain ⟨g, hg⟩ := Option.isSome_iff_exists.mp hsome
  simp [main_exit, show gpus.length ≠ 0 by omega, hrej, hg]

/-- C10 (witness): index `-1` on a concrete two-device list passes the
check and selects the last device. -/
theorem negative_index_selects_from_end_witness :
    index_rejected exampleGpus (-((1 : Nat) : Int)) = false ∧
    py_list_get exampleGpus (-((1 : Nat) : Int)) =
      exampleGpus[exampleGpus.length - 1]? :=
  ⟨(negative_index_selects_from_end exampleGpus 1 (by decide) (by decide)).1,
   (negative_index_selects_from_end exampleGpus 1 (by decide) (by decide)).2.1⟩

end ExtractVbios
